import Mathlib

/-!
Verification of the block assembly stage of the Svelte template compiler
(`src/generators/dom/Block.ts`).

The `Block` class collects code fragments for one rendering unit into eight
phase accumulators (`CodeBuilder` instances) and finally synthesizes a
lifecycle object from them in `render()`.  We embed the data model and the
operations `addDependencies`, `addElement`, `addVariable`, `alias`, `mount`,
`child` and `render` as pure Lean functions.

External collaborators (the `DomGenerator`'s unique-name allocator and
helper registry, and the `deindent` text formatter) are modelled at their
interface boundary: the allocator and helper lookup are opaque function
parameters, and serialized code is kept as ordered lists of fragment strings
rather than flattened text (the formatter only affects whitespace).
-/

/-- Modelled from the spec: the code accumulator (`src/utils/CodeBuilder.ts`
is not part of the provided sources).  Per §4.1 it is an append-only ordered
buffer of code fragments with append-at-end (`addLine` / `addBlock` — the two
differ only in blank-line formatting, which we do not model), insert-at-start
(`addBlockAtStart`), an emptiness test, and order-preserving serialization. -/
structure CodeBuilder where
  fragments : List String
deriving DecidableEq, Repr

def CodeBuilder.empty : CodeBuilder := ⟨[]⟩

/-- `addLine(line)`: append one fragment at the end. -/
def CodeBuilder.addLine (cb : CodeBuilder) (line : String) : CodeBuilder :=
  ⟨cb.fragments ++ [line]⟩

/-- `addBlock(block)`: append one fragment at the end (formatting aside,
identical to `addLine` at the fragment-order level). -/
def CodeBuilder.addBlock (cb : CodeBuilder) (block : String) : CodeBuilder :=
  ⟨cb.fragments ++ [block]⟩

/-- `addBlockAtStart(block)` with a plain string argument: insert at the
start (used by `render` for the combined variable declaration). -/
def CodeBuilder.addBlockAtStart (cb : CodeBuilder) (block : String) : CodeBuilder :=
  ⟨block :: cb.fragments⟩

/-- `addBlockAtStart(builder)` with a nested accumulator argument: splice the
nested accumulator's contents at the start, preserving its internal order
(used by `render` to put `detachRaw` in front of `unmount`). -/
def CodeBuilder.spliceAtStart (cb inner : CodeBuilder) : CodeBuilder :=
  ⟨inner.fragments ++ cb.fragments⟩

/-- `isEmpty()`: whether any fragment has been added. -/
def CodeBuilder.isEmpty (cb : CodeBuilder) : Bool :=
  cb.fragments.isEmpty

/-- The eight phase accumulators owned by a `Block`
(`Block.ts` lines 42–51 / 88–97). -/
structure Builders where
  create : CodeBuilder
  mount : CodeBuilder
  intro : CodeBuilder
  update : CodeBuilder
  outro : CodeBuilder
  unmount : CodeBuilder
  detachRaw : CodeBuilder
  destroy : CodeBuilder
deriving DecidableEq, Repr

/-- The constructor's fresh accumulators: `new CodeBuilder()` for each phase. -/
def Builders.fresh : Builders :=
  ⟨CodeBuilder.empty, CodeBuilder.empty, CodeBuilder.empty, CodeBuilder.empty,
   CodeBuilder.empty, CodeBuilder.empty, CodeBuilder.empty, CodeBuilder.empty⟩

/-- The `DomGenerator` collaborator, modelled at its interface boundary
(spec §6): `getUniqueNameMaker(params)` yields a unique-name allocator for
one compiled unit, and `helper(name)` resolves a runtime helper reference. -/
structure DomGenerator where
  getUniqueNameMaker : List String → String → String
  helper : String → String

/-- The options bundle accepted by the `Block` constructor
(`BlockOptions`, `Block.ts` lines 6–21).  JavaScript `undefined` for an
optional field is `none`.  `dependencies` is declared in the interface but,
as the development shows, never read by the constructor. -/
structure BlockOptions where
  generator : DomGenerator
  name : String
  expression : Option String := none
  context : Option String := none
  key : Option String := none
  contexts : List (String × String) := []
  indexes : List (String × String) := []
  contextDependencies : List (String × List String) := []
  params : List String := []
  indexNames : List (String × String) := []
  listNames : List (String × String) := []
  indexName : Option String := none
  listName : Option String := none
  dependencies : Finset String := ∅

/-- The `Block` data model (`Block.ts` lines 23–66).  JavaScript `Map`s are
association lists keyed by first occurrence (`variables` is a reserved word in Lean, so that field is called `vars` here) (insertion order is observable
in `render`'s combined variable declaration), the dependency `Set` is a
`Finset` (only membership is observable), and fields a constructed block
leaves `undefined` (`first`, `indexName`, `autofocus`) are `Option`s. -/
structure Block where
  generator : DomGenerator
  name : String
  expression : Option String
  context : Option String
  key : Option String
  first : Option String
  contexts : List (String × String)
  indexes : List (String × String)
  contextDependencies : List (String × List String)
  dependencies : Finset String
  params : List String
  indexNames : List (String × String)
  listNames : List (String × String)
  indexName : Option String
  listName : Option String
  builders : Builders
  hasIntroMethod : Bool
  hasOutroMethod : Bool
  outros : Nat
  aliases : List (String × String)
  vars : List (String × Option String)
  getUniqueName : String → String
  component : String
  target : String
  hasUpdateMethod : Bool
  autofocus : Option String

/-- The `Block` constructor (`Block.ts` lines 67–112).  Every container is
freshly allocated (`new Set()`, `new Map()`, eight `new CodeBuilder()`s);
`first` is set to `null`; `indexName` and `autofocus` are never assigned and
therefore remain `undefined` (`none`); `getUniqueName` comes from the
generator's allocator applied to `options.params`, and `component` / `target`
are drawn from it. -/
def Block.ofOptions (options : BlockOptions) : Block :=
  let getUniqueName := options.generator.getUniqueNameMaker options.params
  { generator := options.generator
    name := options.name
    expression := options.expression
    context := options.context
    key := options.key
    first := none
    contexts := options.contexts
    indexes := options.indexes
    contextDependencies := options.contextDependencies
    dependencies := ∅
    params := options.params
    indexNames := options.indexNames
    listNames := options.listNames
    indexName := none
    listName := options.listName
    builders := Builders.fresh
    hasIntroMethod := false
    hasOutroMethod := false
    outros := 0
    aliases := []
    vars := []
    getUniqueName := getUniqueName
    component := getUniqueName "component"
    target := getUniqueName "target"
    hasUpdateMethod := false
    autofocus := none }

/-- `addDependencies(dependencies)` (`Block.ts` lines 114–118): unions the
argument collection into the dependency set (`Set.add` for each element). -/
def Block.addDependencies (b : Block) (dependencies : List String) : Block :=
  { b with dependencies := dependencies.foldl (fun s d => insert d s) b.dependencies }

/-- JavaScript `Map.prototype.set` on an insertion-ordered association list:
overwrite the value at an existing key in place, otherwise append. -/
def mapSet (m : List (String × Option String)) (name : String) (init : Option String) :
    List (String × Option String) :=
  match m with
  | [] => [(name, init)]
  | (k, v) :: rest =>
    if k = name then (k, init) :: rest else (k, v) :: mapSet rest name init

/-- The error message thrown by `addVariable` on a conflicting
re-registration (`Block.ts` lines 148–150). -/
def conflictMessage (name : String) : String :=
  "Variable '" ++ name ++ "' already initialised with a different value"

/-- The variable-map core of `addVariable(name, init?)` (`Block.ts` lines
146–154): `if (variables.has(name) && variables.get(name) !== init) throw`;
otherwise `variables.set(name, init)`.  An omitted initializer is `none`
(JavaScript `undefined`); the thrown `Error` is the `Except.error` case, and
a caller that sees the error keeps its map unchanged (the `throw` happens
before the `set`). -/
def addVariableMap (m : List (String × Option String)) (name : String)
    (init : Option String) : Except String (List (String × Option String)) :=
  match m.lookup name with
  | some stored =>
    if stored = init then Except.ok (mapSet m name init)
    else Except.error (conflictMessage name)
  | none => Except.ok (mapSet m name init)

/-- `addVariable(name, init?)` lifted to the block: on success the block's
variable map is replaced, on conflict the exception propagates and the block
is unchanged. -/
def Block.addVariable (b : Block) (name : String) (init : Option String := none) :
    Except String Block :=
  (addVariableMap b.vars name init).map (fun m => { b with vars := m })

/-- The alias-map core of `alias(name)` (`Block.ts` lines 156–162): memoized
lookup — the first call for a name allocates via the unique-name allocator
and stores the result, later calls return the stored name. -/
def aliasLookup (aliases : List (String × String)) (getUniqueName : String → String)
    (name : String) : List (String × String) × String :=
  match aliases.lookup name with
  | some v => (aliases, v)
  | none => (aliases ++ [(name, getUniqueName name)], getUniqueName name)

/-- `alias(name)` on the block: returns the updated block and the concrete
name. -/
def Block.alias (b : Block) (name : String) : Block × String :=
  let (aliases, concrete) := aliasLookup b.aliases b.getUniqueName name
  ({ b with aliases := aliases }, concrete)

/-- `mount(name, parentNode)` (`Block.ts` lines 185–196): with a parent,
append an `appendNode( name, parent );` call to the `create` accumulator;
with no parent, append an `insertNode( name, target, anchor );` call to the
`mount` accumulator. -/
def Block.mount (b : Block) (name : String) (parentNode : Option String) : Block :=
  match parentNode with
  | some p =>
    { b with builders.create :=
        (b.builders.create.addLine
          (b.generator.helper "appendNode" ++ "( " ++ name ++ ", " ++ p ++ " );")) }
  | none =>
    { b with builders.mount :=
        (b.builders.mount.addLine
          (b.generator.helper "insertNode" ++ "( " ++ name ++ ", " ++
            b.target ++ ", anchor );")) }

/-- `addElement(name, renderStatement, parentNode, needsIdentifier = false)`
(`Block.ts` lines 120–144).  `isToplevel` is the absence of a parent node.
If an identifier is needed or the node is top-level, a named declaration
`var name = renderStatement;` goes into `create` and a mount step is
registered via `mount`; otherwise a single inline
`appendNode( renderStatement, parent );` goes into `create`.  Top-level
nodes additionally append `detachNode( name );` to `unmount`. -/
def Block.addElement (b : Block) (name renderStatement : String)
    (parentNode : Option String) (needsIdentifier : Bool := false) : Block :=
  let isToplevel := parentNode.isNone
  let b1 :=
    if needsIdentifier || isToplevel then
      ({ b with builders.create :=
          (b.builders.create.addLine ("var " ++ name ++ " = " ++ renderStatement ++ ";"))
        }).mount name parentNode
    else
      { b with builders.create :=
          (b.builders.create.addLine
            (b.generator.helper "appendNode" ++ "( " ++ renderStatement ++ ", " ++
              (parentNode.getD "") ++ " );")) }
  if isToplevel then
    { b1 with builders.unmount :=
        (b1.builders.unmount.addLine
          (b1.generator.helper "detachNode" ++ "( " ++ name ++ " );")) }
  else b1

/-- The overrides bundle for `child`: every field optional; an absent field
falls back to the parent block's current value under `Object.assign`. -/
structure ChildOverrides where
  generator : Option DomGenerator := none
  name : Option String := none
  expression : Option String := none
  context : Option String := none
  key : Option String := none
  contexts : Option (List (String × String)) := none
  indexes : Option (List (String × String)) := none
  contextDependencies : Option (List (String × List String)) := none
  params : Option (List String) := none
  indexNames : Option (List (String × String)) := none
  listNames : Option (List (String × String)) := none
  indexName : Option String := none
  listName : Option String := none

/-- `child(options)` (`Block.ts` lines 164–166):
`new Block(Object.assign({}, this, options, { parent: this }))` — the merged
options take each constructor-read field from the overrides when supplied
there and from the parent block otherwise, and the constructor runs on the
merge.  (The `parent` property is not a field the constructor reads, and the
merged-in container fields — `dependencies`, `builders`, `variables`,
`aliases` — are ignored by the constructor, which allocates fresh ones.) -/
def Block.child (b : Block) (o : ChildOverrides) : Block :=
  Block.ofOptions
    { generator := o.generator.getD b.generator
      name := o.name.getD b.name
      expression := o.expression <|> b.expression
      context := o.context <|> b.context
      key := o.key <|> b.key
      contexts := o.contexts.getD b.contexts
      indexes := o.indexes.getD b.indexes
      contextDependencies := o.contextDependencies.getD b.contextDependencies
      params := o.params.getD b.params
      indexNames := o.indexNames.getD b.indexNames
      listNames := o.listNames.getD b.listNames
      indexName := o.indexName <|> b.indexName
      listName := o.listName <|> b.listName
      dependencies := b.dependencies }

/-- The shape of one property of the returned lifecycle object, as emitted
by `render()` (`Block.ts` lines 231–327).  Each constructor records the
semantically relevant content of the corresponding `deindent` template: the
function's body fragments, the guard-flag names, the optional clearing of
the opposite flag (the `flag && line` template idiom, dropped by the
formatter when the flag is false), and the counter initialisation of the
guarded outro. -/
inductive PropValue where
  /-- The shared no-op helper (`noop`). -/
  | noop : PropValue
  /-- `key: localKey,` — the key parameter of the block function. -/
  | keyed : String → PropValue
  /-- `first: <ref>,`. -/
  | firstRef : String → PropValue
  /-- `mount: function ( target, anchor ) { <body> },`. -/
  | mountFn : String → List String → PropValue
  /-- `update: function ( changed, <params> ) { <body> },`. -/
  | updateFn : List String → List String → PropValue
  /-- `intro: function ( target, anchor )` guarded by the `introing` flag:
  return if set; set it; clear the `outroing` flag when present; run the
  intro fragments; call `this.mount( target, anchor )`. -/
  | introGuarded : String → String → Option String → List String → PropValue
  /-- `intro: function ( target, anchor ) { this.mount( target, anchor ); }`. -/
  | introPlain : String → PropValue
  /-- `outro: function ( outrocallback )` guarded by the `outroing` flag:
  return if set; set it; clear the `introing` flag when present; declare
  `var <outrosName> = <outros>;`; run the outro fragments.  The first field
  is the aliased callback name, the fourth the aliased counter name, the
  fifth the block's outro-participant count. -/
  | outroGuarded : String → String → Option String → String → Nat → List String → PropValue
  /-- `outro: function ( outrocallback ) { outrocallback(); }`. -/
  | outroImmediate : PropValue
  /-- `unmount: function () { <body> },`. -/
  | unmountFn : List String → PropValue
  /-- `destroy: function () { <body> }`. -/
  | destroyFn : List String → PropValue
deriving DecidableEq, Repr

/-- The serialized artifact of `render()` (`Block.ts` lines 329–340): the
function header data and the `create`-phase body, plus the ordered
name/value list of the returned object's properties. -/
structure RenderedBlock where
  name : String
  params : List String
  component : String
  localKey : Option String
  createBody : List String
  properties : List (String × PropValue)
deriving DecidableEq, Repr

/-- The combined variable declaration text (`Block.ts` lines 214–219):
entries in first-registration order, `key = init` when an initializer was
given, bare `key` otherwise, joined by `, `. -/
def varDeclarations (vars : List (String × Option String)) : String :=
  String.intercalate ", "
    (vars.map (fun p => match p.2 with
      | some init => p.1 ++ " = " ++ init
      | none => p.1))

/-- The `key:` / `first:` properties (`Block.ts` lines 233–241). -/
def keyFirstProperties (localKey first : Option String) : List (String × PropValue) :=
  (match localKey with
   | some k => [("key", PropValue.keyed k)]
   | none => []) ++
  (match first with
   | some f => [("first", PropValue.firstRef f)]
   | none => [])

/-- The `mount:` property (`Block.ts` lines 243–251): the no-op helper when
the mount accumulator is empty, else a `function ( target, anchor )` running
the accumulated fragments. -/
def mountProperty (mountB : CodeBuilder) (target : String) : String × PropValue :=
  if mountB.isEmpty then ("mount", PropValue.noop)
  else ("mount", PropValue.mountFn target mountB.fragments)

/-- The `update:` property (`Block.ts` lines 253–263): present only when
`hasUpdateMethod`; the no-op helper when the update accumulator is empty. -/
def updateProperties (hasUpdateMethod : Bool) (updateB : CodeBuilder)
    (params : List String) : List (String × PropValue) :=
  if hasUpdateMethod then
    [if updateB.isEmpty then ("update", PropValue.noop)
     else ("update", PropValue.updateFn params updateB.fragments)]
  else []

/-- The `intro:` property (`Block.ts` lines 265–285): present only when
`hasIntroMethod`; guarded when intro fragments exist (`introing` is `some`
exactly then), plain otherwise.  The guarded form clears `outroing` exactly
when outro fragments exist (`outroing` is `some` exactly then). -/
def introProperties (hasIntroMethod : Bool) (target : String)
    (introing outroing : Option String) (introB : CodeBuilder) :
    List (String × PropValue) :=
  if hasIntroMethod then
    [match introing with
     | some iname =>
       ("intro", PropValue.introGuarded target iname outroing introB.fragments)
     | none => ("intro", PropValue.introPlain target)]
  else []

/-- The `outro:` property (`Block.ts` lines 287–307): present only when
`hasOutroMethod`; guarded when outro fragments exist, immediate-callback
otherwise.  The guarded form aliases `outrocallback` and `outros` (in that
order), clears `introing` exactly when intro fragments exist, and declares
the per-invocation counter from the block's outro count. -/
def outroProperties (hasOutroMethod : Bool) (aliases : List (String × String))
    (getUniqueName : String → String) (introing outroing : Option String)
    (outros : Nat) (outroB : CodeBuilder) : List (String × PropValue) :=
  if hasOutroMethod then
    [match outroing with
     | some oname =>
       let a1 := aliasLookup aliases getUniqueName "outrocallback"
       let a2 := aliasLookup a1.1 getUniqueName "outros"
       ("outro",
        PropValue.outroGuarded a1.2 oname introing a2.2 outros outroB.fragments)
     | none => ("outro", PropValue.outroImmediate)]
  else []

/-- The `unmount:` property (`Block.ts` lines 309–317), evaluated on the
unmount accumulator with `detachRaw` already spliced at its start. -/
def unmountProperty (unmountAll : CodeBuilder) : String × PropValue :=
  if unmountAll.isEmpty then ("unmount", PropValue.noop)
  else ("unmount", PropValue.unmountFn unmountAll.fragments)

/-- The `destroy:` property (`Block.ts` lines 319–327). -/
def destroyProperty (destroyB : CodeBuilder) : String × PropValue :=
  if destroyB.isEmpty then ("destroy", PropValue.noop)
  else ("destroy", PropValue.destroyFn destroyB.fragments)

/-- `render()` (`Block.ts` lines 198–341), in source order.  When intro
fragments exist, an `introing` guard flag is allocated and registered as a
variable (no initializer); likewise `outroing` for outro fragments — either
registration throws if the allocated name collides with an
already-initialized variable, and the exception propagates.  Then the
combined variable declaration is prepended to `create`, the autofocus call
appended, `detachRaw` spliced at the start of `unmount`, a local key name
allocated when the block is keyed, and the properties assembled in the fixed
order key, first, mount, update, intro, outro, unmount, destroy.  `render`
is terminal: the mutated accumulators and maps are consumed here, so the
result carries only the serialized artifact. -/
def Block.render (b : Block) : Except String RenderedBlock :=
  let hasIntros := !b.builders.intro.isEmpty
  let introing := if hasIntros then some (b.getUniqueName "introing") else none
  let hasOutros := !b.builders.outro.isEmpty
  let outroing := if hasOutros then some (b.getUniqueName "outroing") else none
  match (match introing with
         | some n => addVariableMap b.vars n none
         | none => Except.ok b.vars) with
  | Except.error e => Except.error e
  | Except.ok vars1 =>
    match (match outroing with
           | some n => addVariableMap vars1 n none
           | none => Except.ok vars1) with
    | Except.error e => Except.error e
    | Except.ok vars2 =>
      let create1 :=
        if vars2.isEmpty then b.builders.create
        else b.builders.create.addBlockAtStart ("var " ++ varDeclarations vars2 ++ ";")
      let create2 :=
        match b.autofocus with
        | some a => create1.addLine (a ++ ".focus();")
        | none => create1
      let unmountAll := b.builders.unmount.spliceAtStart b.builders.detachRaw
      let localKey :=
        match b.key with
        | some _ => some (b.getUniqueName "key")
        | none => none
      Except.ok
        { name := b.name
          params := b.params
          component := b.component
          localKey := localKey
          createBody := create2.fragments
          properties :=
            keyFirstProperties localKey b.first ++
            [mountProperty b.builders.mount b.target] ++
            updateProperties b.hasUpdateMethod b.builders.update b.params ++
            introProperties b.hasIntroMethod b.target introing outroing
              b.builders.intro ++
            outroProperties b.hasOutroMethod b.aliases b.getUniqueName introing
              outroing b.outros b.builders.outro ++
            [unmountProperty unmountAll, destroyProperty b.builders.destroy] }

/-- The set union of all argument collections of a sequence of
`addDependencies` calls. -/
def dependencyUnion (calls : List (List String)) : Finset String :=
  calls.foldr (fun c acc => c.toFinset ∪ acc) ∅

/-- A sample generator for concrete evaluations: the identity allocator and
helper registry. -/
def demoGen : DomGenerator := ⟨fun _ n => n, fun h => h⟩

/-- A freshly constructed block over `demoGen`. -/
def demoBlock : Block := Block.ofOptions { generator := demoGen, name := "create_main_fragment" }

/-- A block whose `mount`, `update`, `unmount` and `destroy` accumulators are
empty and whose flags are all false, but whose `detachRaw` accumulator holds
one fragment. -/
def detachRawOnlyBlock : Block :=
  { demoBlock with builders.detachRaw := ⟨["detachRaw( raw );"]⟩ }

/-- The artifact `detachRawOnlyBlock.render` produces. -/
def detachRawOnlyRendered : RenderedBlock :=
  { name := "create_main_fragment", params := [], component := "component",
    localKey := none, createBody := [],
    properties := [("mount", PropValue.noop),
                   ("unmount", PropValue.unmountFn ["detachRaw( raw );"]),
                   ("destroy", PropValue.noop)] }

/-- The artifact `demoBlock.render` produces. -/
def demoRendered : RenderedBlock :=
  { name := "create_main_fragment", params := [], component := "component",
    localKey := none, createBody := [],
    properties := [("mount", PropValue.noop), ("unmount", PropValue.noop),
                   ("destroy", PropValue.noop)] }

/-- A block with an intro method and one intro fragment. -/
def introDemoBlock : Block :=
  { demoBlock with hasIntroMethod := true, builders.intro := ⟨["run( intro );"]⟩ }

/-- The artifact `introDemoBlock.render` produces. -/
def introDemoRendered : RenderedBlock :=
  { name := "create_main_fragment", params := [], component := "component",
    localKey := none, createBody := ["var introing;"],
    properties := [("mount", PropValue.noop),
                   ("intro", (PropValue.introGuarded "target" "introing" none
                      ["run( intro );"])),
                   ("unmount", PropValue.noop), ("destroy", PropValue.noop)] }

/-- A block with an outro method, one outro fragment and two outro
participants. -/
def outroDemoBlock : Block :=
  { demoBlock with
    hasOutroMethod := true
    outros := 2
    builders.outro := ⟨["run( outro );"]⟩ }

/-- The artifact `outroDemoBlock.render` produces. -/
def outroDemoRendered : RenderedBlock :=
  { name := "create_main_fragment", params := [], component := "component",
    localKey := none, createBody := ["var outroing;"],
    properties := [("mount", PropValue.noop),
                   ("outro", (PropValue.outroGuarded "outrocallback" "outroing"
                      none "outros" 2 ["run( outro );"])),
                   ("unmount", PropValue.noop), ("destroy", PropValue.noop)] }

/-- A block with one `detachRaw` fragment and one `unmount` fragment. -/
def unmountDemoBlock : Block :=
  { demoBlock with builders.detachRaw := ⟨["detachRaw( raw );"]⟩, builders.unmount := ⟨["detachNode( div );"]⟩ }

/-- The artifact `unmountDemoBlock.render` produces. -/
def unmountDemoRendered : RenderedBlock :=
  { name := "create_main_fragment", params := [], component := "component",
    localKey := none, createBody := [],
    properties := [("mount", PropValue.noop),
                   ("unmount", (PropValue.unmountFn
                      ["detachRaw( raw );", "detachNode( div );"])),
                   ("destroy", PropValue.noop)] }

/-! ## Helper lemmas -/

theorem lookup_mapSet_self (m : List (String × Option String)) (name : String)
    (init : Option String) : (mapSet m name init).lookup name = some init := by
  induction m with
  | nil => simp [mapSet, List.lookup]
  | cons p rest ih =>
    obtain ⟨k, v⟩ := p
    by_cases h : k = name
    · simp [mapSet, h, List.lookup]
    · have hb : (name == k) = false := by
        simp only [beq_eq_false_iff_ne, ne_eq]
        exact fun e => h e.symm
      simp [mapSet, h, List.lookup, hb, ih]

theorem mapSet_of_lookup_eq (m : List (String × Option String)) (name : String)
    (init : Option String) (h : m.lookup name = some init) :
    mapSet m name init = m := by
  induction m with
  | nil => simp [List.lookup] at h
  | cons p rest ih =>
    obtain ⟨k, v⟩ := p
    by_cases hk : k = name
    · subst hk
      simp [List.lookup] at h
      simp [mapSet, h]
    · have hb : (name == k) = false := by
        simp only [beq_eq_false_iff_ne, ne_eq]
        exact fun e => hk e.symm
      simp [List.lookup, hb] at h
      simp [mapSet, hk, ih h]

theorem foldl_insert_eq_union (l : List String) (s : Finset String) :
    l.foldl (fun acc d => insert d acc) s = s ∪ l.toFinset := by
  induction l generalizing s with
  | nil => simp
  | cons a rest ih =>
    simp only [List.foldl_cons, ih, List.toFinset_cons]
    rw [Finset.insert_union, Finset.union_insert]

theorem addDependencies_dependencies (b : Block) (l : List String) :
    (b.addDependencies l).dependencies = b.dependencies ∪ l.toFinset := by
  simp [Block.addDependencies, foldl_insert_eq_union]

theorem dependencyUnion_cons (c : List String) (calls : List (List String)) :
    dependencyUnion (c :: calls) = c.toFinset ∪ dependencyUnion calls := rfl

theorem foldl_addDependencies (calls : List (List String)) (b : Block) :
    (calls.foldl (fun bl c => bl.addDependencies c) b).dependencies
      = b.dependencies ∪ dependencyUnion calls := by
  induction calls generalizing b with
  | nil => simp [dependencyUnion]
  | cons c rest ih =>
    simp only [List.foldl_cons, ih, dependencyUnion_cons,
      addDependencies_dependencies, Finset.union_assoc]

theorem dependencyUnion_perm {calls calls' : List (List String)}
    (h : calls.Perm calls') : dependencyUnion calls = dependencyUnion calls' := by
  induction h with
  | nil => rfl
  | cons x _ ih => simp [dependencyUnion_cons, ih]
  | swap x y l =>
    simp only [dependencyUnion_cons, ← Finset.union_assoc]
    rw [Finset.union_comm y.toFinset x.toFinset]
  | trans _ _ ih1 ih2 => exact ih1.trans ih2

theorem lookup_append {β : Type} (l₁ l₂ : List (String × β)) (k : String) :
    (l₁ ++ l₂).lookup k = ((l₁.lookup k).or (l₂.lookup k)) := by
  induction l₁ with
  | nil => simp [List.lookup]
  | cons p rest ih =>
    obtain ⟨a, v⟩ := p
    cases hka : k == a <;> simp [List.lookup, hka, ih]

/-- The properties list of a successful `render` depends only on the block's
pre-render state: the guard-variable registrations can make `render` throw,
but they do not feed back into the emitted property list. -/
theorem render_ok_properties (b : Block) (r : RenderedBlock)
    (h : b.render = Except.ok r) :
    r.properties =
      keyFirstProperties
        (match b.key with
         | some _ => some (b.getUniqueName "key")
         | none => none) b.first ++
      [mountProperty b.builders.mount b.target] ++
      updateProperties b.hasUpdateMethod b.builders.update b.params ++
      introProperties b.hasIntroMethod b.target
        (if !b.builders.intro.isEmpty then some (b.getUniqueName "introing") else none)
        (if !b.builders.outro.isEmpty then some (b.getUniqueName "outroing") else none)
        b.builders.intro ++
      outroProperties b.hasOutroMethod b.aliases b.getUniqueName
        (if !b.builders.intro.isEmpty then some (b.getUniqueName "introing") else none)
        (if !b.builders.outro.isEmpty then some (b.getUniqueName "outroing") else none)
        b.outros b.builders.outro ++
      [unmountProperty (b.builders.unmount.spliceAtStart b.builders.detachRaw),
       destroyProperty b.builders.destroy] := by
  simp only [Block.render] at h
  split at h
  · exact absurd h (by simp)
  · split at h
    · exact absurd h (by simp)
    · injection h with h
      subst h
      rfl

theorem keyFirstProperties_lookup_of_ne (lk f : Option String) (s : String)
    (h1 : (s == "key") = false) (h2 : (s == "first") = false) :
    (keyFirstProperties lk f).lookup s = none := by
  cases lk <;> cases f <;> simp [keyFirstProperties, List.lookup, h1, h2]

theorem mountProperty_lookup_of_ne (mb : CodeBuilder) (t s : String)
    (h : (s == "mount") = false) : List.lookup s [mountProperty mb t] = none := by
  unfold mountProperty
  split <;> simp [List.lookup, h]

theorem updateProperties_lookup_of_ne (hu : Bool) (ub : CodeBuilder)
    (ps : List String) (s : String) (h : (s == "update") = false) :
    (updateProperties hu ub ps).lookup s = none := by
  unfold updateProperties
  split
  · split <;> simp [List.lookup, h]
  · rfl

theorem introProperties_lookup_of_ne (hi : Bool) (t : String)
    (introing outroing : Option String) (ib : CodeBuilder) (s : String)
    (h : (s == "intro") = false) :
    (introProperties hi t introing outroing ib).lookup s = none := by
  unfold introProperties
  split
  · cases introing <;> simp [List.lookup, h]
  · rfl

theorem outroProperties_lookup_of_ne (ho : Bool) (al : List (String × String))
    (gn : String → String) (introing outroing : Option String) (os : Nat)
    (ob : CodeBuilder) (s : String) (h : (s == "outro") = false) :
    (outroProperties ho al gn introing outroing os ob).lookup s = none := by
  unfold outroProperties
  split
  · cases outroing <;> simp [List.lookup, h]
  · rfl

theorem tailProperties_lookup_of_ne (ua db : CodeBuilder) (s : String)
    (h1 : (s == "unmount") = false) (h2 : (s == "destroy") = false) :
    List.lookup s [unmountProperty ua, destroyProperty db] = none := by
  unfold unmountProperty destroyProperty
  split <;> split <;> simp [List.lookup, h1, h2]

theorem introProperties_lookup_intro (hi : Bool) (t : String)
    (introing outroing : Option String) (ib : CodeBuilder) :
    (introProperties hi t introing outroing ib).lookup "intro"
      = if hi then
          some (match introing with
                | some iname => PropValue.introGuarded t iname outroing ib.fragments
                | none => PropValue.introPlain t)
        else none := by
  unfold introProperties
  split <;> [skip; rfl]
  cases introing <;> simp [List.lookup]

theorem outroProperties_lookup_outro (ho : Bool) (al : List (String × String))
    (gn : String → String) (introing outroing : Option String) (os : Nat)
    (ob : CodeBuilder) :
    (outroProperties ho al gn introing outroing os ob).lookup "outro"
      = if ho then
          some (match outroing with
                | some oname =>
                  PropValue.outroGuarded (aliasLookup al gn "outrocallback").2
                    oname introing
                    (aliasLookup (aliasLookup al gn "outrocallback").1 gn "outros").2
                    os ob.fragments
                | none => PropValue.outroImmediate)
        else none := by
  unfold outroProperties
  split <;> [skip; rfl]
  cases outroing <;> simp [List.lookup]

theorem tailProperties_lookup_unmount (ua db : CodeBuilder) :
    List.lookup "unmount" [unmountProperty ua, destroyProperty db]
      = some (if ua.isEmpty then PropValue.noop
              else PropValue.unmountFn ua.fragments) := by
  unfold unmountProperty destroyProperty
  split <;> simp [List.lookup]

/-! ## The claims -/

/-- C1: for every variable name `n`, calling `addVariable(n, x)` again with
the same initializer `x` (or with the initializer omitted both times,
`x = none`) never fails and leaves the variable map exactly as after the
first call; calling `addVariable(n, x2)` after a successful
`addVariable(n, x1)` with `x1 ≠ x2` (including omitted-vs-supplied) always
fails with the declaration-conflict error, and — since the exception is
thrown before the `set` — the failing call leaves the variable map
unchanged (the `Except.error` result carries no new map). -/
theorem addVariable_repeat_and_conflict (m v : List (String × Option String))
    (n : String) (x x1 x2 : Option String) :
    (addVariableMap m n x = Except.ok v → addVariableMap v n x = Except.ok v)
    ∧ (x1 ≠ x2 → addVariableMap m n x1 = Except.ok v →
        addVariableMap v n x2 = Except.error (conflictMessage n)) := by
  constructor
  · intro h
    have hv : v = mapSet m n x := by
      unfold addVariableMap at h
      split at h
      · split at h
        · exact (Except.ok.inj h).symm
        · exact absurd h (by simp)
      · exact (Except.ok.inj h).symm
    subst hv
    unfold addVariableMap
    rw [lookup_mapSet_self]
    simp [mapSet_of_lookup_eq _ _ _ (lookup_mapSet_self m n x)]
  · intro hne h
    have hv : v = mapSet m n x1 := by
      unfold addVariableMap at h
      split at h
      · split at h
        · exact (Except.ok.inj h).symm
        · exact absurd h (by simp)
      · exact (Except.ok.inj h).symm
    subst hv
    unfold addVariableMap
    rw [lookup_mapSet_self]
    simp [hne]

/-- Witness for C1: registering `n = "a"` on the empty map succeeds, a
repeat with the same initializer returns the identical map, and a repeat
with initializer `"b"` fails with the conflict error. -/
theorem addVariable_repeat_and_conflict_witness :
    addVariableMap [("n", some "a")] "n" (some "a")
        = Except.ok [("n", some "a")]
    ∧ addVariableMap [("n", some "a")] "n" (some "b")
        = Except.error (conflictMessage "n") :=
  ⟨(addVariable_repeat_and_conflict [] [("n", some "a")] "n" (some "a")
      (some "a") (some "b")).1 rfl,
   (addVariable_repeat_and_conflict [] [("n", some "a")] "n" (some "a")
      (some "a") (some "b")).2 (by decide) rfl⟩

/-- C2: `addElement(name, expr, parentNode, needsIdentifier)`.  With no
parent (top-level): the create phase gains the named declaration
`var name = expr;`, a mount step `insertNode( name, target, anchor );` is
registered in the mount phase, and a matching `detachNode( name );` is
appended to the unmount phase.  With a parent and `needsIdentifier`: the
create phase gains the named declaration followed by the mount step
`appendNode( name, parent );` (into create), and no unmount registration.
With a parent and no identifier: the create phase gains a single inline
`appendNode( expr, parent );` with no named binding, no mount-step
registration and no unmount registration. -/
theorem addElement_emission (b : Block) (name expr : String)
    (parentNode : Option String) (needsIdentifier : Bool) :
    (match parentNode with
     | none =>
       (b.addElement name expr parentNode needsIdentifier).builders.create.fragments
           = b.builders.create.fragments ++ ["var " ++ name ++ " = " ++ expr ++ ";"]
       ∧ (b.addElement name expr parentNode needsIdentifier).builders.mount.fragments
           = b.builders.mount.fragments
             ++ [b.generator.helper "insertNode" ++ "( " ++ name ++ ", "
                 ++ b.target ++ ", anchor );"]
       ∧ (b.addElement name expr parentNode needsIdentifier).builders.unmount.fragments
           = b.builders.unmount.fragments
             ++ [b.generator.helper "detachNode" ++ "( " ++ name ++ " );"]
     | some p =>
       (b.addElement name expr parentNode needsIdentifier).builders.unmount
           = b.builders.unmount
       ∧ (b.addElement name expr parentNode needsIdentifier).builders.mount
           = b.builders.mount
       ∧ (if needsIdentifier then
            (b.addElement name expr parentNode needsIdentifier).builders.create.fragments
              = b.builders.create.fragments
                ++ ["var " ++ name ++ " = " ++ expr ++ ";",
                    b.generator.helper "appendNode" ++ "( " ++ name ++ ", " ++ p ++ " );"]
          else
            (b.addElement name expr parentNode needsIdentifier).builders.create.fragments
              = b.builders.create.fragments
                ++ [b.generator.helper "appendNode" ++ "( " ++ expr ++ ", " ++ p ++ " );"])) := by
  cases parentNode with
  | none =>
    simp [Block.addElement, Block.mount, CodeBuilder.addLine]
  | some p =>
    cases needsIdentifier <;>
      simp [Block.addElement, Block.mount, CodeBuilder.addLine]

/-- Counterexample to C3 as stated: `detachRawOnlyBlock` satisfies every
condition the claim lists — empty `mount`, `update`, `unmount` and `destroy`
accumulators, all three method flags false, no key, no first reference, no
declared variables, no autofocus — yet its rendered object's `unmount`
property is a detaching function, not the no-op helper, because the
non-empty `detachRaw` accumulator is spliced into `unmount` during
rendering. -/
theorem render_trivial_block_counterexample :
    detachRawOnlyBlock.builders.mount.fragments = []
    ∧ detachRawOnlyBlock.builders.update.fragments = []
    ∧ detachRawOnlyBlock.builders.unmount.fragments = []
    ∧ detachRawOnlyBlock.builders.destroy.fragments = []
    ∧ detachRawOnlyBlock.hasUpdateMethod = false
    ∧ detachRawOnlyBlock.hasIntroMethod = false
    ∧ detachRawOnlyBlock.hasOutroMethod = false
    ∧ detachRawOnlyBlock.key = none
    ∧ detachRawOnlyBlock.first = none
    ∧ detachRawOnlyBlock.vars = []
    ∧ detachRawOnlyBlock.autofocus = none
    ∧ detachRawOnlyBlock.render = Except.ok detachRawOnlyRendered
    ∧ detachRawOnlyRendered.properties
        ≠ [("mount", PropValue.noop), ("unmount", PropValue.noop),
           ("destroy", PropValue.noop)] := by
  refine ⟨rfl, rfl, rfl, rfl, rfl, rfl, rfl, rfl, rfl, rfl, rfl, rfl, ?_⟩
  decide

/-- C3 as amended: rendering a block whose `mount`, `update`, `unmount`,
`destroy` and additionally `detachRaw` accumulators are all empty, whose
`hasUpdateMethod`, `hasIntroMethod` and `hasOutroMethod` flags are all
false, with no key, no first reference, no declared variables and no
autofocus target, produces an artifact whose returned object contains
exactly the three properties `mount`, `unmount` and `destroy`, each bound to
the shared no-op helper, and no `update`, `intro`, `outro`, `key` or `first`
property. -/
theorem render_trivial_block_properties (b : Block) (r : RenderedBlock)
    (hm : b.builders.mount.fragments = [])
    (hup : b.builders.update.fragments = [])
    (hun : b.builders.unmount.fragments = [])
    (hde : b.builders.destroy.fragments = [])
    (hdr : b.builders.detachRaw.fragments = [])
    (h1 : b.hasUpdateMethod = false)
    (h2 : b.hasIntroMethod = false)
    (h3 : b.hasOutroMethod = false)
    (hk : b.key = none) (hf : b.first = none)
    (hv : b.vars = []) (ha : b.autofocus = none)
    (h : b.render = Except.ok r) :
    r.properties =
      [("mount", PropValue.noop), ("unmount", PropValue.noop),
       ("destroy", PropValue.noop)] := by
  rw [render_ok_properties b r h]
  simp [keyFirstProperties, hk, hf, mountProperty, CodeBuilder.isEmpty, hm,
    updateProperties, h1, introProperties, h2, outroProperties, h3,
    unmountProperty, CodeBuilder.spliceAtStart, hun, hdr,
    destroyProperty, hde]

/-- Witness for C3: the freshly constructed `demoBlock` satisfies every
hypothesis and renders to exactly the three no-op properties. -/
theorem render_trivial_block_properties_witness :
    demoBlock.render = Except.ok demoRendered
    ∧ demoRendered.properties =
        [("mount", PropValue.noop), ("unmount", PropValue.noop),
         ("destroy", PropValue.noop)] :=
  ⟨rfl, render_trivial_block_properties demoBlock demoRendered rfl rfl rfl rfl
    rfl rfl rfl rfl rfl rfl rfl rfl rfl⟩

/-- C4: in the rendered artifact, when `hasIntroMethod` is true and the
intro accumulator is non-empty, the `intro` property is the guarded
function — return immediately if the `introing` flag is set, else set it,
clear the `outroing` flag exactly when the block has outro fragments, run
the intro fragments, then call `mount` — with the flag names drawn from the
unique-name allocator; when `hasIntroMethod` is true and the intro
accumulator is empty, the `intro` property is a `function (target, anchor)`
that unconditionally calls `mount`; when `hasIntroMethod` is false, no
`intro` property is emitted. -/
theorem render_intro_property (b : Block) (r : RenderedBlock)
    (h : b.render = Except.ok r) :
    r.properties.lookup "intro" =
      (if b.hasIntroMethod then
        some (if b.builders.intro.isEmpty then PropValue.introPlain b.target
              else PropValue.introGuarded b.target (b.getUniqueName "introing")
                     (if b.builders.outro.isEmpty then none
                      else some (b.getUniqueName "outroing"))
                     b.builders.intro.fragments)
       else none) := by
  rw [render_ok_properties b r h]
  simp only [lookup_append]
  rw [keyFirstProperties_lookup_of_ne _ _ _ (by rfl) (by rfl),
      mountProperty_lookup_of_ne _ _ _ (by rfl),
      updateProperties_lookup_of_ne _ _ _ _ (by rfl),
      outroProperties_lookup_of_ne _ _ _ _ _ _ _ _ (by rfl),
      tailProperties_lookup_of_ne _ _ _ (by rfl) (by rfl),
      introProperties_lookup_intro]
  cases hI : b.hasIntroMethod <;> cases hE : b.builders.intro.isEmpty <;>
    cases hO : b.builders.outro.isEmpty <;> simp [hE, hO]

/-- Witness for C4: `introDemoBlock` (intro method plus one intro fragment,
no outros) renders with a guarded `intro` property that carries the
`introing` flag, no `outroing` clearing, and the intro fragment. -/
theorem render_intro_property_witness :
    introDemoBlock.render = Except.ok introDemoRendered
    ∧ introDemoRendered.properties.lookup "intro"
        = some (PropValue.introGuarded "target" "introing" none
            ["run( intro );"]) :=
  ⟨rfl, render_intro_property introDemoBlock introDemoRendered rfl⟩

/-- C5: in the rendered artifact, when `hasOutroMethod` is true and the
outro accumulator is empty, the `outro` property is a `function (callback)`
that immediately invokes the callback; when `hasOutroMethod` is true and the
outro accumulator is non-empty, the `outro` property is the guarded
function — return immediately if the `outroing` flag is set, else set it,
clear the `introing` flag exactly when the block has intro fragments,
declare the per-invocation participant counter (under the memoized `outros`
alias) initialized from the block's outro count, and run the outro
fragments — with the callback name drawn from the memoized `outrocallback`
alias; when `hasOutroMethod` is false, no `outro` property is emitted. -/
theorem render_outro_property (b : Block) (r : RenderedBlock)
    (h : b.render = Except.ok r) :
    r.properties.lookup "outro" =
      (if b.hasOutroMethod then
        some (if b.builders.outro.isEmpty then PropValue.outroImmediate
              else PropValue.outroGuarded
                     (aliasLookup b.aliases b.getUniqueName "outrocallback").2
                     (b.getUniqueName "outroing")
                     (if b.builders.intro.isEmpty then none
                      else some (b.getUniqueName "introing"))
                     (aliasLookup (aliasLookup b.aliases b.getUniqueName "outrocallback").1
                        b.getUniqueName "outros").2
                     b.outros b.builders.outro.fragments)
       else none) := by
  rw [render_ok_properties b r h]
  simp only [lookup_append]
  rw [keyFirstProperties_lookup_of_ne _ _ _ (by rfl) (by rfl),
      mountProperty_lookup_of_ne _ _ _ (by rfl),
      updateProperties_lookup_of_ne _ _ _ _ (by rfl),
      introProperties_lookup_of_ne _ _ _ _ _ _ (by rfl),
      tailProperties_lookup_of_ne _ _ _ (by rfl) (by rfl),
      outroProperties_lookup_outro]
  cases hO : b.hasOutroMethod <;> cases hE : b.builders.outro.isEmpty <;>
    cases hI : b.builders.intro.isEmpty <;> simp [hE, hI]

/-- Witness for C5: `outroDemoBlock` (outro method, one outro fragment,
outro count 2, no intros) renders with a guarded `outro` property carrying
the aliased callback and counter names, the count 2 and the outro
fragment. -/
theorem render_outro_property_witness :
    outroDemoBlock.render = Except.ok outroDemoRendered
    ∧ outroDemoRendered.properties.lookup "outro"
        = some (PropValue.outroGuarded "outrocallback" "outroing" none
            "outros" 2 ["run( outro );"]) :=
  ⟨rfl, render_outro_property outroDemoBlock outroDemoRendered rfl⟩

/-- C6: in the rendered artifact the `unmount` property's body is exactly
the `detachRaw` fragments, in their original order, followed by the
`unmount` fragments in their original order (so every detach-raw fragment
runs before every unmount fragment); when both accumulators are empty the
property is the no-op helper. -/
theorem render_unmount_detachRaw_first (b : Block) (r : RenderedBlock)
    (h : b.render = Except.ok r) :
    r.properties.lookup "unmount" =
      some (if (b.builders.detachRaw.fragments ++ b.builders.unmount.fragments).isEmpty
            then PropValue.noop
            else PropValue.unmountFn
              (b.builders.detachRaw.fragments ++ b.builders.unmount.fragments)) := by
  rw [render_ok_properties b r h]
  simp only [lookup_append]
  rw [keyFirstProperties_lookup_of_ne _ _ _ (by rfl) (by rfl),
      mountProperty_lookup_of_ne _ _ _ (by rfl),
      updateProperties_lookup_of_ne _ _ _ _ (by rfl),
      introProperties_lookup_of_ne _ _ _ _ _ _ (by rfl),
      outroProperties_lookup_of_ne _ _ _ _ _ _ _ _ (by rfl),
      tailProperties_lookup_unmount]
  simp [CodeBuilder.spliceAtStart, CodeBuilder.isEmpty]

/-- Witness for C6: `unmountDemoBlock` holds one detach-raw fragment and one
unmount fragment, and its rendered `unmount` body lists the detach-raw
fragment first. -/
theorem render_unmount_detachRaw_first_witness :
    unmountDemoBlock.render = Except.ok unmountDemoRendered
    ∧ unmountDemoRendered.properties.lookup "unmount"
        = some (PropValue.unmountFn
            ["detachRaw( raw );", "detachNode( div );"]) :=
  ⟨rfl, render_unmount_detachRaw_first unmountDemoBlock unmountDemoRendered rfl⟩

/-- C7: for every finite sequence of `addDependencies` calls on a block, the
resulting dependency set equals the block's starting set unioned with the
set union of all argument collections — duplicates within or across calls
collapse, no element is ever lost (the starting set is contained in the
result), and permuting the sequence of calls leaves the resulting set
unchanged. -/
theorem addDependencies_union (b : Block) (calls calls' : List (List String))
    (h : calls.Perm calls') :
    (calls.foldl (fun bl c => bl.addDependencies c) b).dependencies
        = b.dependencies ∪ dependencyUnion calls
    ∧ b.dependencies ⊆ (calls.foldl (fun bl c => bl.addDependencies c) b).dependencies
    ∧ (calls'.foldl (fun bl c => bl.addDependencies c) b).dependencies
        = (calls.foldl (fun bl c => bl.addDependencies c) b).dependencies := by
  refine ⟨foldl_addDependencies calls b, ?_, ?_⟩
  · rw [foldl_addDependencies calls b]
    exact Finset.subset_union_left
  · rw [foldl_addDependencies calls b, foldl_addDependencies calls' b,
        dependencyUnion_perm h]

/-- Witness for C7: two overlapping calls on `demoBlock` yield the union of
their arguments, and swapping the two calls yields the same set. -/
theorem addDependencies_union_witness :
    ([["a"], ["b", "a"]].foldl (fun bl c => bl.addDependencies c) demoBlock).dependencies
        = demoBlock.dependencies ∪ dependencyUnion [["a"], ["b", "a"]]
    ∧ ([["b", "a"], ["a"]].foldl (fun bl c => bl.addDependencies c) demoBlock).dependencies
        = ([["a"], ["b", "a"]].foldl (fun bl c => bl.addDependencies c) demoBlock).dependencies :=
  ⟨(addDependencies_union demoBlock [["a"], ["b", "a"]] [["b", "a"], ["a"]]
      (List.Perm.swap _ _ _)).1,
   (addDependencies_union demoBlock [["a"], ["b", "a"]] [["b", "a"], ["a"]]
      (List.Perm.swap _ _ _)).2.2⟩

/-- Counterexample to C8 as stated: the claim says the declaration-conflict
error carries the variable name and both conflicting initializer values, but
the error thrown by `addVariable` is the same for the conflicting pair
`("1", "2")` as for the entirely different conflicting pair `("3", "4")` —
a fixed message mentioning only the name — so it cannot carry the two
initializers. -/
theorem conflict_error_payload_counterexample :
    addVariableMap [("x", some "1")] "x" (some "2")
        = addVariableMap [("x", some "3")] "x" (some "4")
    ∧ addVariableMap [("x", some "1")] "x" (some "2")
        = Except.error "Variable 'x' already initialised with a different value" :=
  ⟨rfl, rfl⟩

/-- C8 as amended: when `addVariable` fails because a variable was
registered twice with differing initializers, the declaration-conflict error
surfaced to the invoking compiler carries the variable name — the message is
the fixed text `Variable '<name>' already initialised with a different
value` — but not the two conflicting initializer values. -/
theorem conflict_error_carries_name_only (m : List (String × Option String))
    (n : String) (x1 x2 : Option String) (hs : m.lookup n = some x1)
    (hne : x1 ≠ x2) :
    addVariableMap m n x2
      = Except.error
          ("Variable '" ++ n ++ "' already initialised with a different value") := by
  unfold addVariableMap
  rw [hs]
  simp only [if_neg hne]
  rfl

/-- Witness for C8: the variable `y` registered with `"1"` and re-registered
with `"2"` produces the fixed message naming `y`. -/
theorem conflict_error_carries_name_only_witness :
    List.lookup "y" [("y", some "1")] = some (some "1")
    ∧ addVariableMap [("y", some "1")] "y" (some "2")
        = Except.error
            ("Variable '" ++ "y" ++ "' already initialised with a different value") :=
  ⟨rfl, conflict_error_carries_name_only [("y", some "1")] "y" (some "1")
    (some "2") rfl (by decide)⟩

/-- C9: for every block `b` and every overrides bundle `o`, the child block
`b.child o` owns fresh phase accumulators, a fresh dependency set, a fresh
variables map and a fresh aliases map: whatever `b` has accumulated, the
child starts from the constructor's empty containers, so no mutation of the
child's state is observable through the parent and vice versa (in this pure
embedding every operation returns a new value, so the only sharing the
JavaScript original could exhibit — reference sharing of the containers — is
refuted by the child's containers being the constructor's fresh empties
independently of `b`). -/
theorem child_owns_fresh_state (b : Block) (o : ChildOverrides) :
    (b.child o).builders = Builders.fresh
    ∧ (b.child o).dependencies = ∅
    ∧ (b.child o).vars = []
    ∧ (b.child o).aliases = [] :=
  ⟨rfl, rfl, rfl, rfl⟩

/-- C10: the `Block` constructor never assigns `indexName`: for every
options bundle — even one that supplies `indexName` — the constructed
block's `indexName` is `none`, while `listName` is copied from the options,
although `BlockOptions` declares `indexName` as an accepted field. -/
theorem constructor_ignores_indexName (options : BlockOptions) (x : String) :
    (Block.ofOptions options).indexName = none
    ∧ (Block.ofOptions { options with indexName := some x }).indexName = none
    ∧ (Block.ofOptions options).listName = options.listName :=
  ⟨rfl, rfl, rfl⟩
